import Mathlib

/-!
Shallow embedding of the composite-image renderer of `src/bot.py`
(the `build_outfit_panel` routine and its helpers `img_url`,
`fetch_image`, `draw_glow_ring`, `hex_points`, `draw_hex_frame`,
`paste_center`), together with theorems settling the specification
claims about it.

Modelling conventions:
* Python floats are modelled by `ℚ` where the code only divides,
  multiplies, compares and truncates, and by `ℝ` where the code calls
  `math.cos` / `math.sin` / `math.radians`.
* Python `int(x)` (truncation toward zero) is `pyInt` on `ℚ` and
  `pyIntR` on `ℝ`.
* The network is a parameter `net : String → HttpResponse` mapping a
  request URL to the response, and the PIL image decoding is a parameter
  `decode : List Nat → Option Img` from response bytes; `Image.open`
  failures of the code correspond to `decode` returning `none`.
* Drawing onto the PIL canvas is modelled as an explicit trace of
  draw operations (`Op`), emitted in exactly the order the code
  performs them; an HTTP request log is threaded alongside so that
  "no network call" statements are provable.
* All modelled functions are total: the "never raises" paths of the code
  correspond to the functions returning `Option`/default values
  rather than failing.
-/

namespace APIBot

/-- A PIL color tuple: either an RGB triple or an RGBA quadruple. -/
inductive Color where
  | rgb (r g b : Nat)
  | rgba (r g b a : Nat)
deriving DecidableEq

/-- First component of a color tuple (`color[0]` in the code). -/
def Color.r : Color → Nat
  | .rgb r _ _ => r
  | .rgba r _ _ _ => r

/-- Second component of a color tuple (`color[1]` in the code). -/
def Color.g : Color → Nat
  | .rgb _ g _ => g
  | .rgba _ g _ _ => g

/-- Third component of a color tuple (`color[2]` in the code). -/
def Color.b : Color → Nat
  | .rgb _ _ b => b
  | .rgba _ _ b _ => b

/-- An uninterpreted item identifier: the JSON profile stores cosmetic ids as
strings or numbers.  Only its Python truthiness and its string form
(for URL interpolation) matter to the code. -/
inductive ItemId where
  | str (s : String)
  | num (n : Int)
deriving DecidableEq

/-- Python truthiness of an item id: `""` and `0` are falsy. -/
def ItemId.truthy : ItemId → Bool
  | .str s => s != ""
  | .num n => n != 0

/-- The f-string rendering of an item id (`f"...{item_id}..."`). -/
def ItemId.toStr : ItemId → String
  | .str s => s
  | .num n => toString n

/-- A decoded PIL image: its mode string, pixel dimensions (Python
ints), and, when the image is a single solid color produced by
`Image.new(mode, size, color)`, that color.  A composite or decoded
image has `fill = none`. -/
structure Img where
  mode : String
  width : Int
  height : Int
  fill : Option Color
deriving DecidableEq

/-- `img.convert("RGBA")`. -/
def Img.convertRGBA (i : Img) : Img := { i with mode := "RGBA" }

/-- An HTTP response: status code and body bytes. -/
structure HttpResponse where
  status : Nat
  body : List Nat
deriving DecidableEq

/-- Result of one `fetch_image` call: the image (or `none`) and the
list of request URLs issued by the call. -/
structure FetchResult where
  img : Option Img
  reqs : List String
deriving DecidableEq

/-- `IMAGE_URL` constant of the code. -/
def IMAGE_URL : String := "https://developers.freefirecommunity.com/api/v1/image"

/-- Python `int(x)` on a float: truncation toward zero. -/
def pyInt (q : ℚ) : Int := if 0 ≤ q then ⌊q⌋ else ⌈q⌉

/-- `img_url(item_id)`: `None` for a falsy id (including Python `None`,
modelled as `none`), else the image-endpoint URL with the id and API
key interpolated. -/
def img_url (apiKey : String) (item_id : Option ItemId) : Option String :=
  match item_id with
  | none => none
  | some i =>
      if i.truthy then
        some (IMAGE_URL ++ "?itemID=" ++ i.toStr ++ "&key=" ++ apiKey)
      else
        none

/-- `fetch_image(session, item_id)`: no URL means an immediate `None`
with no request; otherwise one GET, and on status 200 the body is
decoded and converted to RGBA, any decode failure yielding `None`;
a non-200 status yields `None`. -/
def fetch_image (net : String → HttpResponse) (decode : List Nat → Option Img)
    (apiKey : String) (item_id : Option ItemId) : FetchResult :=
  match img_url apiKey item_id with
  | none => ⟨none, []⟩
  | some url =>
      let resp := net url
      if resp.status = 200 then
        ⟨(decode resp.body).map Img.convertRGBA, [url]⟩
      else
        ⟨none, [url]⟩

/-- `petInfo` sub-record: only its `id` field is read by the core. -/
structure PetInfo where
  id : Option ItemId
deriving DecidableEq

/-- `profileInfo` sub-record: only `clothes` and `avatarId` are read
by the core. -/
structure ProfileInfo where
  clothes : Option (List ItemId)
  avatarId : Option ItemId
deriving DecidableEq

/-- `basicInfo` sub-record: only `weaponSkinShows` and `headPic` are
read by the core. -/
structure BasicInfo where
  weaponSkinShows : Option (List ItemId)
  headPic : Option ItemId
deriving DecidableEq

/-- The nested profile record, every sub-record optional. -/
structure ProfileRecord where
  profileInfo : Option ProfileInfo
  basicInfo : Option BasicInfo
  petInfo : Option PetInfo
deriving DecidableEq

/-- `data.get("profileInfo", {}).get("clothes", []) or []`. -/
def getClothes (d : ProfileRecord) : List ItemId :=
  (d.profileInfo.bind fun p => p.clothes).getD []

/-- `data.get("basicInfo", {}).get("weaponSkinShows", []) or []`. -/
def getWeapons (d : ProfileRecord) : List ItemId :=
  (d.basicInfo.bind fun b => b.weaponSkinShows).getD []

/-- `(data.get("petInfo", {}) or {}).get("id")`. -/
def petId (d : ProfileRecord) : Option ItemId :=
  d.petInfo.bind fun p => p.id

/-- `(data.get("profileInfo", {}) or {}).get("avatarId")`. -/
def avatarId (d : ProfileRecord) : Option ItemId :=
  d.profileInfo.bind fun p => p.avatarId

/-- `(data.get("basicInfo", {}) or {}).get("headPic")`. -/
def headPic (d : ProfileRecord) : Option ItemId :=
  d.basicInfo.bind fun b => b.headPic

/-- The item collection of `build_outfit_panel`: clothes, then weapon
skins, then the pet id when truthy; finally the no-op
truncation `items[:len(items)]` of the code. -/
def itemList (d : ProfileRecord) : List ItemId :=
  let items : List ItemId := []
  let items := items ++ getClothes d
  let items := items ++ getWeapons d
  let items :=
    match petId d with
    | some p => if p.truthy then items ++ [p] else items
    | none => items
  items.take items.length

/-- One drawing operation on the canvas, in the order the code issues
them.  Coordinates that the code computes with `math.cos`/`math.sin`
are real; the glow ring bounding boxes and pasted positions are
rational/integer exactly as the code computes them. -/
inductive Op where
  | newCanvas (w h : Nat) (color : Color)
  | lineSeg (pts : List (ℝ × ℝ)) (color : Color) (width : Nat)
  | polygon (pts : List (ℝ × ℝ)) (fill : Color)
  | ellipse (x0 y0 x1 y1 : ℚ) (outline : Color) (width : Nat)
  | paste (img : Img) (x y : Int)

/-- Python `int(x)` on a real value: truncation toward zero. -/
noncomputable def pyIntR (x : ℝ) : Int :=
  if 0 ≤ x then ⌊x⌋ else ⌈x⌉

/-- `math.radians(x)`: degrees to radians. -/
noncomputable def radians (x : ℝ) : ℝ := x * (Real.pi / 180)

/-- `hex_points(center, size)`: the 6 vertices of a flat-top regular
hexagon, vertex `k` at angle `60k − 30` degrees. -/
noncomputable def hex_points (center : ℝ × ℝ) (size : ℝ) : List (ℝ × ℝ) :=
  (List.range 6).map fun (k : ℕ) =>
    (center.1 + size * Real.cos (radians (60 * (k : ℝ) - 30)),
     center.2 + size * Real.sin (radians (60 * (k : ℝ) - 30)))

/-- `draw_hex_frame(canvas, center, size, border, fill, shadow)`:
optional shadow polygon offset by (+4,+4), then the filled polygon,
then the border outline closed by repeating the first vertex. -/
noncomputable def draw_hex_frame (center : ℝ × ℝ) (size : ℝ)
    (border : Color := .rgb 139 0 0) (fill : Color := .rgb 30 30 30)
    (shadow : Bool := true) : List Op :=
  let pts := hex_points center size
  (if shadow then
      [Op.polygon (pts.map fun p => (p.1 + 4, p.2 + 4)) (.rgba 0 0 0 120)]
    else []) ++
  [Op.polygon pts fill,
   Op.lineSeg (pts ++ [pts.headI]) border 4]

/-- `draw_glow_ring(canvas, center, outer_radius, inner_radius, color,
steps)`: `steps` concentric ellipse outlines of width 6, radius
`inner + (outer − inner)·(i/steps)` and alpha `int(180·(1 − i/steps))`. -/
def draw_glow_ring (center : ℚ × ℚ) (outer_radius inner_radius : ℚ)
    (color : Color := .rgb 139 0 0) (steps : Nat := 30) : List Op :=
  (List.range steps).map fun (i : ℕ) =>
    let t : ℚ := (i : ℚ) / (steps : ℚ)
    let radius := inner_radius + (outer_radius - inner_radius) * t
    let alpha := (pyInt (180 * (1 - t))).toNat
    Op.ellipse (center.1 - radius) (center.2 - radius)
      (center.1 + radius) (center.2 + radius)
      (.rgba color.r color.g color.b alpha) 6

/-- `paste_center(canvas, img, center, max_size)`: aspect-preserving
resize by `min(max_size/w, max_size/h)` with dimensions clamped to at
least 1, pasted so the resized image is centered on `center`.  Returns
the paste operation together with the resized image (the return
value of the code). -/
def paste_center (img : Img) (center : ℚ × ℚ) (max_size : ℚ) : Op × Img :=
  let w := img.width
  let h := img.height
  let scale := min (max_size / (w : ℚ)) (max_size / (h : ℚ))
  let nw := max 1 (pyInt ((w : ℚ) * scale))
  let nh := max 1 (pyInt ((h : ℚ) * scale))
  let resized : Img := { img with width := nw, height := nh }
  let x := pyInt (center.1 - (nw : ℚ) / 2)
  let y := pyInt (center.2 - (nh : ℚ) / 2)
  (Op.paste resized x y, resized)

/-- Canvas width `W = 1400`. -/
def W : Nat := 1400

/-- Canvas height `H = 1000`. -/
def H : Nat := 1000

/-- `center = (W // 2, H // 2)`. -/
def center : Nat × Nat := (W / 2, H / 2)

/-- `ring_radius = 420`. -/
def ring_radius : Nat := 420

/-- The angle (radians) of ring slot `i` of `n`:
`math.radians(-90 + (360 / n) * i)`. -/
noncomputable def itemAngle (n i : ℕ) : ℝ :=
  radians (-90 + 360 / (n : ℝ) * (i : ℝ))

/-- The integer pixel center of ring slot `i` of `n`:
`(int(cx + 420·cos ang), int(cy + 420·sin ang))`. -/
noncomputable def itemCenter (n i : ℕ) : Int × Int :=
  (pyIntR ((center.1 : ℝ) + (ring_radius : ℝ) * Real.cos (itemAngle n i)),
   pyIntR ((center.2 : ℝ) + (ring_radius : ℝ) * Real.sin (itemAngle n i)))

/-- The ring-slot center as a real point (for the hex-frame vertices,
which the code computes from the integer pixel center). -/
noncomputable def itemCenterR (n i : ℕ) : ℝ × ℝ :=
  (((itemCenter n i).1 : ℝ), ((itemCenter n i).2 : ℝ))

/-- The draw operations one ring item produces: the gold/white hex
frame, then — only when the fetch of the item yields an image — the
alpha-clean composite pasted at max dimension 120. -/
noncomputable def itemOps (net : String → HttpResponse)
    (decode : List Nat → Option Img) (apiKey : String)
    (n i : ℕ) (item : ItemId) : List Op :=
  let c := itemCenter n i
  draw_hex_frame (itemCenterR n i) 110 (.rgb 255 223 0) (.rgb 255 255 255) true ++
  match (fetch_image net decode apiKey (some item)).img with
  | none => []
  | some img =>
      let img2 := img.convertRGBA
      let transparent_bg : Img := ⟨"RGBA", img2.width, img2.height, none⟩
      [(paste_center transparent_bg ((c.1 : ℚ), (c.2 : ℚ)) 120).1]

/-- The `for i, item_id in enumerate(items)` loop: draw operations and
request log of the whole ring, starting at index `i`. -/
noncomputable def ringLoop (net : String → HttpResponse)
    (decode : List Nat → Option Img) (apiKey : String) (n : ℕ) :
    ℕ → List ItemId → List Op × List String
  | _, [] => ([], [])
  | i, item :: rest =>
      let fr := fetch_image net decode apiKey (some item)
      let rec' := ringLoop net decode apiKey n (i + 1) rest
      (itemOps net decode apiKey n i item ++ rec'.1, fr.reqs ++ rec'.2)

/-- The avatar-resolution step: fetch `profileInfo.avatarId`; only when
that yields no image, fetch `basicInfo.headPic`.  Returns the avatar
(or `none`) and the requests issued. -/
def resolveAvatar (net : String → HttpResponse)
    (decode : List Nat → Option Img) (apiKey : String)
    (d : ProfileRecord) : Option Img × List String :=
  let r1 := fetch_image net decode apiKey (avatarId d)
  match r1.img with
  | some a => (some a, r1.reqs)
  | none =>
      let r2 := fetch_image net decode apiKey (headPic d)
      (r2.img, r1.reqs ++ r2.reqs)

/-- The gray translucent placeholder:
`Image.new("RGBA", (300, 300), (200, 200, 200, 120))`. -/
def silhouette : Img := ⟨"RGBA", 300, 300, some (.rgba 200 200 200 120)⟩

/-- The avatar paste: the avatar itself when present, else the
placeholder, both pasted at the canvas center with `max_size = 300`. -/
def avatarOps (avatar : Option Img) : List Op :=
  match avatar with
  | some a => [(paste_center a ((center.1 : ℚ), (center.2 : ℚ)) 300).1]
  | none => [(paste_center silhouette ((center.1 : ℚ), (center.2 : ℚ)) 300).1]

/-- The gradient background: one horizontal line per row `y`, color
`(20, 20, 40, int(255·(1 − y/H)))`. -/
noncomputable def backgroundOps : List Op :=
  (List.range H).map fun (y : ℕ) =>
    Op.lineSeg [((0 : ℝ), (y : ℝ)), ((W : ℝ), (y : ℝ))]
      (.rgba 20 20 40 (pyInt (255 * (1 - (y : ℚ) / (H : ℚ)))).toNat) 0

/-- The finished render: the full draw trace, the request log, and the
output encoding (`canvas.save(output, format="PNG")`). -/
structure Panel where
  ops : List Op
  reqs : List String
  format : String

/-- `build_outfit_panel(data)`: canvas allocation, gradient background,
item collection, avatar resolution (with placeholder fallback), and —
when the item list is nonempty — the hex ring, encoded as PNG. -/
noncomputable def build_outfit_panel (net : String → HttpResponse)
    (decode : List Nat → Option Img) (apiKey : String)
    (d : ProfileRecord) : Panel :=
  let items := itemList d
  let n := items.length
  let av := resolveAvatar net decode apiKey d
  let ring :=
    if 0 < n then ringLoop net decode apiKey n 0 items
    else (([] : List Op), ([] : List String))
  { ops := Op.newCanvas W H (.rgba 30 30 30 255) ::
      (backgroundOps ++ avatarOps av.1 ++ ring.1)
  , reqs := av.2 ++ ring.2
  , format := "PNG" }

/-- Recognizes the white hex-frame fill polygons (the only white-filled
polygons the renderer draws — one per ring item). -/
def isWhitePoly : Op → Bool
  | .polygon _ f => f == .rgb 255 255 255
  | _ => false

/-- The white fill polygon of ring slot `i` of `n`. -/
noncomputable def whiteHexOp (n i : ℕ) : Op :=
  Op.polygon (hex_points (itemCenterR n i) 110) (.rgb 255 255 255)

/-- A network on which every request fails with status 404. -/
def net404 : String → HttpResponse := fun _ => ⟨404, []⟩

/-- A network on which every request succeeds with a one-byte body. -/
def net200 : String → HttpResponse := fun _ => ⟨200, [7]⟩

/-- A decoder that fails on every body. -/
def decodeNone : List Nat → Option Img := fun _ => none

/-- A decoder that yields a fixed 10×20 image on every body. -/
def decodeFix : List Nat → Option Img := fun _ => some ⟨"P", 10, 20, none⟩

/-- The end-to-end example profile of the spec: clothes `["a","b"]`, weapon
skins `["c"]`, pet id `"d"`. -/
def exABCD : ProfileRecord :=
  ⟨some ⟨some [.str "a", .str "b"], none⟩,
   some ⟨some [.str "c"], none⟩,
   some ⟨some (.str "d")⟩⟩

/-- A profile whose pet id is present but numeric `0` (falsy). -/
def cexPet0 : ProfileRecord :=
  ⟨some ⟨some [.str "a"], none⟩, none, some ⟨some (.num 0)⟩⟩

/-- A profile with a single clothing item and nothing else. -/
def oneItem : ProfileRecord :=
  ⟨some ⟨some [.str "a"], none⟩, none, none⟩

/-- Python `int()` of an integer-valued rational is that integer. -/
theorem pyInt_intCast (k : ℤ) : pyInt (k : ℚ) = k := by
  unfold pyInt
  split
  · exact Int.floor_intCast k
  · exact Int.ceil_intCast k

/-- Truncation toward zero is monotone on nonnegative arguments. -/
theorem pyInt_mono {a b : ℚ} (ha : 0 ≤ a) (h : a ≤ b) : pyInt a ≤ pyInt b := by
  unfold pyInt
  rw [if_pos ha, if_pos (ha.trans h)]
  exact Int.floor_le_floor h

/-- The item collection is clothes, then weapon skins, then the pet id
exactly when it is truthy. -/
theorem itemList_eq_concat (d : ProfileRecord) :
    itemList d = getClothes d ++ getWeapons d ++
      (match petId d with
       | some p => if p.truthy then [p] else []
       | none => []) := by
  unfold itemList
  cases h : petId d with
  | none => simp [h]
  | some p => cases hp : p.truthy <;> simp [h, hp]

/-- C2 (counterexample): on a profile whose pet id is present but the
falsy number `0`, the item collection is not the full concatenation
`clothes ++ weaponSkinShows ++ [petInfo.id]` — the pet id is dropped. -/
theorem itemList_drops_present_falsy_pet :
    petId cexPet0 = some (ItemId.num 0) ∧
    itemList cexPet0 ≠
      getClothes cexPet0 ++ getWeapons cexPet0 ++ [ItemId.num 0] := by
  decide

/-- C2 (amended): the ItemList is exactly
`profileInfo.clothes ++ basicInfo.weaponSkinShows ++ (petInfo.id, when
present and truthy)`, order preserved, duplicates allowed, possibly
empty; on the example profile with clothes `["a","b"]`, weapon skins
`["c"]` and pet id `"d"` it is `["a","b","c","d"]` with `n = 4`. -/
theorem itemList_is_ordered_concat (d : ProfileRecord) :
    itemList d = getClothes d ++ getWeapons d ++
      (match petId d with
       | some p => if p.truthy then [p] else []
       | none => [])
    ∧ itemList exABCD =
        [ItemId.str "a", ItemId.str "b", ItemId.str "c", ItemId.str "d"]
    ∧ (itemList exABCD).length = 4 :=
  ⟨itemList_eq_concat d, by decide, by decide⟩

/-- C10: a present-but-falsy pet id (numeric 0 or empty string) is
excluded from the ItemList, and any falsy id given to the fetcher
yields no URL and an immediate `none` with no request — exactly as a
missing id does. -/
theorem falsy_ids_indistinguishable (net : String → HttpResponse)
    (decode : List Nat → Option Img) (apiKey : String)
    (d : ProfileRecord) (p : ItemId)
    (hp : petId d = some p) (hf : p.truthy = false) :
    itemList d = getClothes d ++ getWeapons d
    ∧ (∀ q : ItemId, q.truthy = false →
        img_url apiKey (some q) = none
        ∧ fetch_image net decode apiKey (some q) = ⟨none, []⟩
        ∧ fetch_image net decode apiKey (some q) =
            fetch_image net decode apiKey none) := by
  constructor
  · rw [itemList_eq_concat d, hp]
    simp [hf]
  · intro q hq
    refine ⟨?_, ?_, ?_⟩ <;> simp [img_url, fetch_image, hq]

/-- C10 (witness): the falsy pet id `0` of `cexPet0` is dropped and the
fetcher treats it as absent. -/
theorem falsy_ids_indistinguishable_witness :
    itemList cexPet0 = getClothes cexPet0 ++ getWeapons cexPet0
    ∧ img_url "k" (some (ItemId.num 0)) = none
    ∧ fetch_image net404 decodeNone "k" (some (ItemId.num 0)) = ⟨none, []⟩ := by
  have h := falsy_ids_indistinguishable net404 decodeNone "k" cexPet0
    (ItemId.num 0) (by decide) (by decide)
  exact ⟨h.1, (h.2 (ItemId.num 0) (by decide)).1,
    (h.2 (ItemId.num 0) (by decide)).2.1⟩

/-- C5: the fetcher returns `none` with no request for an absent or
falsy id; with a URL it issues one request, returns `none` on any
non-200 status or decode failure, and on status 200 with a successful
decode returns the image converted to RGBA. -/
theorem fetch_image_spec (net : String → HttpResponse)
    (decode : List Nat → Option Img) (apiKey : String) :
    fetch_image net decode apiKey none = ⟨none, []⟩
    ∧ (∀ i : ItemId, i.truthy = false →
        fetch_image net decode apiKey (some i) = ⟨none, []⟩)
    ∧ (∀ (i : ItemId) (url : String), img_url apiKey (some i) = some url →
        ((net url).status ≠ 200 →
          fetch_image net decode apiKey (some i) = ⟨none, [url]⟩)
        ∧ ((net url).status = 200 → decode (net url).body = none →
          fetch_image net decode apiKey (some i) = ⟨none, [url]⟩)
        ∧ (∀ im : Img, (net url).status = 200 → decode (net url).body = some im →
          fetch_image net decode apiKey (some i) = ⟨some im.convertRGBA, [url]⟩
          ∧ im.convertRGBA.mode = "RGBA")) := by
  refine ⟨rfl, ?_, ?_⟩
  · intro i hi
    simp [fetch_image, img_url, hi]
  · intro i url hurl
    refine ⟨?_, ?_, ?_⟩
    · intro hst
      simp [fetch_image, hurl, hst]
    · intro hst hdec
      simp [fetch_image, hurl, hst, hdec]
    · intro im hst hdec
      exact ⟨by simp [fetch_image, hurl, hst, hdec], rfl⟩

/-- C5 (witness): the immediate-`none` path on an absent and on an
empty id, the non-200 path, the decode-failure path, and the
successful RGBA path, each at a concrete network. -/
theorem fetch_image_spec_witness :
    fetch_image net404 decodeFix "k" none = ⟨none, []⟩
    ∧ fetch_image net404 decodeFix "k" (some (ItemId.str "")) = ⟨none, []⟩
    ∧ fetch_image net404 decodeFix "k" (some (ItemId.str "a")) =
        ⟨none, [IMAGE_URL ++ "?itemID=" ++ "a" ++ "&key=" ++ "k"]⟩
    ∧ fetch_image net200 decodeNone "k" (some (ItemId.str "a")) =
        ⟨none, [IMAGE_URL ++ "?itemID=" ++ "a" ++ "&key=" ++ "k"]⟩
    ∧ fetch_image net200 decodeFix "k" (some (ItemId.str "a")) =
        ⟨some (Img.convertRGBA ⟨"P", 10, 20, none⟩),
         [IMAGE_URL ++ "?itemID=" ++ "a" ++ "&key=" ++ "k"]⟩ := by
  refine ⟨(fetch_image_spec net404 decodeFix "k").1,
    (fetch_image_spec net404 decodeFix "k").2.1 (ItemId.str "") (by decide),
    ((fetch_image_spec net404 decodeFix "k").2.2 (ItemId.str "a") _ rfl).1
      (by decide),
    (((fetch_image_spec net200 decodeNone "k").2.2 (ItemId.str "a") _ rfl).2.1
      rfl rfl),
    ((((fetch_image_spec net200 decodeFix "k").2.2 (ItemId.str "a") _ rfl).2.2
      ⟨"P", 10, 20, none⟩ rfl rfl).1)⟩

/-- A 200×100 source with bound 120 scales by 3/5 to 120×60 and is
pasted with its top-left corner at `(cx − 60, cy − 30)`. -/
theorem paste_center_200_100 (mode : String) (fl : Option Color) (cx cy : ℤ) :
    paste_center ⟨mode, 200, 100, fl⟩ ((cx : ℚ), (cy : ℚ)) 120 =
      (Op.paste ⟨mode, 120, 60, fl⟩ (cx - 60) (cy - 30), ⟨mode, 120, 60, fl⟩) := by
  have hmin : min ((120 : ℚ) / ((200 : ℤ) : ℚ)) ((120 : ℚ) / ((100 : ℤ) : ℚ)) =
      (120 : ℚ) / ((200 : ℤ) : ℚ) :=
    min_eq_left (by norm_num)
  have e1 : ((200 : ℤ) : ℚ) *
      min ((120 : ℚ) / ((200 : ℤ) : ℚ)) ((120 : ℚ) / ((100 : ℤ) : ℚ)) = ((120 : ℤ) : ℚ) := by
    rw [hmin]
    norm_num
  have e2 : ((100 : ℤ) : ℚ) *
      min ((120 : ℚ) / ((200 : ℤ) : ℚ)) ((120 : ℚ) / ((100 : ℤ) : ℚ)) = ((60 : ℤ) : ℚ) := by
    rw [hmin]
    norm_num
  have h1 : max 1 (pyInt (((200 : ℤ) : ℚ) *
      min ((120 : ℚ) / ((200 : ℤ) : ℚ)) ((120 : ℚ) / ((100 : ℤ) : ℚ)))) = (120 : ℤ) := by
    rw [e1, pyInt_intCast]
    norm_num
  have h2 : max 1 (pyInt (((100 : ℤ) : ℚ) *
      min ((120 : ℚ) / ((200 : ℤ) : ℚ)) ((120 : ℚ) / ((100 : ℤ) : ℚ)))) = (60 : ℤ) := by
    rw [e2, pyInt_intCast]
    norm_num
  have h3 : pyInt ((cx : ℚ) - ((120 : ℤ) : ℚ) / 2) = cx - 60 := by
    have h : ((cx : ℚ) - ((120 : ℤ) : ℚ) / 2) = ((cx - 60 : ℤ) : ℚ) := by
      push_cast
      ring
    rw [h, pyInt_intCast]
  have h4 : pyInt ((cy : ℚ) - ((60 : ℤ) : ℚ) / 2) = cy - 30 := by
    have h : ((cy : ℚ) - ((60 : ℤ) : ℚ) / 2) = ((cy - 30 : ℤ) : ℚ) := by
      push_cast
      ring
    rw [h, pyInt_intCast]
  simp only [paste_center, h1, h2, h3, h4]

/-- C6: `paste_center` scales by `min(max_size/w, max_size/h)` in both
dimensions (clamped below by 1), pastes the resized image so that it is
centered on the target point, and in particular maps a 200×100 image
with `max_size = 120` to a 120×60 region centered at the target. -/
theorem paste_center_spec (img : Img) (c : ℚ × ℚ) (m : ℚ)
    (hw : 1 ≤ img.width) (hh : 1 ≤ img.height) :
    ((paste_center img c m).2).width =
        max 1 (pyInt ((img.width : ℚ) *
          min (m / (img.width : ℚ)) (m / (img.height : ℚ))))
    ∧ ((paste_center img c m).2).height =
        max 1 (pyInt ((img.height : ℚ) *
          min (m / (img.width : ℚ)) (m / (img.height : ℚ))))
    ∧ ((paste_center img c m).2).mode = img.mode
    ∧ (paste_center img c m).1 =
        Op.paste ((paste_center img c m).2)
          (pyInt (c.1 - (((paste_center img c m).2).width : ℚ) / 2))
          (pyInt (c.2 - (((paste_center img c m).2).height : ℚ) / 2))
    ∧ (∀ (mode : String) (fl : Option Color) (cx cy : ℤ),
        paste_center ⟨mode, 200, 100, fl⟩ ((cx : ℚ), (cy : ℚ)) 120 =
          (Op.paste ⟨mode, 120, 60, fl⟩ (cx - 60) (cy - 30), ⟨mode, 120, 60, fl⟩))
    ∧ min ((120 : ℚ) / 200) ((120 : ℚ) / 100) = 3 / 5 :=
  ⟨rfl, rfl, rfl, rfl, paste_center_200_100,
   by rw [min_eq_left (by norm_num)]; norm_num⟩

/-- C6 (witness): the concrete 200×100 / 120 instance at center
(300, 200). -/
theorem paste_center_spec_witness :
    paste_center ⟨"RGBA", 200, 100, none⟩ (((300 : ℤ) : ℚ), ((200 : ℤ) : ℚ)) 120 =
      (Op.paste ⟨"RGBA", 120, 60, none⟩ 240 170, ⟨"RGBA", 120, 60, none⟩) := by
  have h := (paste_center_spec ⟨"RGBA", 200, 100, none⟩
    (((300 : ℤ) : ℚ), ((200 : ℤ) : ℚ)) 120 (by decide) (by decide)).2.2.2.2.1
    "RGBA" none 300 200
  simpa using h

/-- C7: the resized dimensions are always at least 1 pixel. -/
theorem paste_center_dims_ge_one (img : Img) (c : ℚ × ℚ) (m : ℚ)
    (hw : 1 ≤ img.width) (hh : 1 ≤ img.height) :
    1 ≤ ((paste_center img c m).2).width
    ∧ 1 ≤ ((paste_center img c m).2).height :=
  ⟨le_max_left 1 _, le_max_left 1 _⟩

/-- C7 (witness): the degenerate 1×1000 source with `max_size = 1`. -/
theorem paste_center_dims_ge_one_witness :
    1 ≤ ((paste_center ⟨"RGBA", 1, 1000, none⟩ (0, 0) 1).2).width
    ∧ 1 ≤ ((paste_center ⟨"RGBA", 1, 1000, none⟩ (0, 0) 1).2).height :=
  paste_center_dims_ge_one ⟨"RGBA", 1, 1000, none⟩ (0, 0) 1 (by decide) (by decide)

/-- C9: the glow ring consists of exactly `steps` (default 30)
concentric ellipse outlines; outline `i` has radius
`inner + (outer − inner)·(i/steps)` — equal to `inner` at `i = 0` and
strictly growing toward `outer` — and alpha `int(180·(1 − i/steps))` —
180 at `i = 0` and weakly decreasing as the radius grows. -/
theorem draw_glow_ring_spec (c : ℚ × ℚ) (outer inner : ℚ) (color : Color)
    (steps : ℕ) (i : ℕ) (hi : i < steps) :
    (draw_glow_ring c outer inner color steps).length = steps
    ∧ (draw_glow_ring c outer inner color steps).get? i =
        some (Op.ellipse
          (c.1 - (inner + (outer - inner) * ((i : ℚ) / (steps : ℚ))))
          (c.2 - (inner + (outer - inner) * ((i : ℚ) / (steps : ℚ))))
          (c.1 + (inner + (outer - inner) * ((i : ℚ) / (steps : ℚ))))
          (c.2 + (inner + (outer - inner) * ((i : ℚ) / (steps : ℚ))))
          (.rgba color.r color.g color.b
            ((pyInt (180 * (1 - (i : ℚ) / (steps : ℚ)))).toNat)) 6)
    ∧ inner + (outer - inner) * ((0 : ℚ) / (steps : ℚ)) = inner
    ∧ (pyInt (180 * (1 - (0 : ℚ) / (steps : ℚ)))).toNat = 180
    ∧ (∀ j k : ℕ, j < k → k < steps → inner < outer →
        inner + (outer - inner) * ((j : ℚ) / (steps : ℚ)) <
          inner + (outer - inner) * ((k : ℚ) / (steps : ℚ)))
    ∧ (∀ j k : ℕ, j ≤ k → k < steps →
        pyInt (180 * (1 - (k : ℚ) / (steps : ℚ))) ≤
          pyInt (180 * (1 - (j : ℚ) / (steps : ℚ))))
    ∧ draw_glow_ring c outer inner color = draw_glow_ring c outer inner color 30 := by
  have hs : (0 : ℚ) < (steps : ℚ) := by
    exact_mod_cast lt_of_le_of_lt (Nat.zero_le i) hi
  refine ⟨by simp [draw_glow_ring], ?_, by simp, ?_, ?_, ?_, rfl⟩
  · rw [draw_glow_ring, List.get?_map, List.get?_range hi]
    rfl
  · have h : (180 : ℚ) * (1 - (0 : ℚ) / (steps : ℚ)) = ((180 : ℤ) : ℚ) := by
      norm_num
    rw [h, pyInt_intCast]
    rfl
  · intro j k hjk hk hio
    have hdiv : ((j : ℚ) / (steps : ℚ)) < ((k : ℚ) / (steps : ℚ)) := by
      apply (div_lt_div_right hs).mpr
      exact_mod_cast hjk
    have := mul_lt_mul_of_pos_left hdiv (sub_pos.mpr hio)
    linarith
  · intro j k hjk hk
    apply pyInt_mono
    · have hk1 : ((k : ℚ) / (steps : ℚ)) < 1 := by
        rw [div_lt_one hs]
        exact_mod_cast hk
      nlinarith
    · have hdiv : ((j : ℚ) / (steps : ℚ)) ≤ ((k : ℚ) / (steps : ℚ)) := by
        apply (div_le_div_right hs).mpr
        exact_mod_cast hjk
      nlinarith

/-- C9 (witness): the glow ring at center (0,0), outer radius 10,
inner radius 4, with 2 steps, evaluated at outline index 1. -/
theorem draw_glow_ring_spec_witness :
    (draw_glow_ring (0, 0) 10 4 (Color.rgb 139 0 0) 2).length = 2
    ∧ (draw_glow_ring (0, 0) 10 4 (Color.rgb 139 0 0) 2).get? 1 =
        some (Op.ellipse
          ((0 : ℚ) - (4 + (10 - 4) * ((1 : ℚ) / (2 : ℚ))))
          ((0 : ℚ) - (4 + (10 - 4) * ((1 : ℚ) / (2 : ℚ))))
          ((0 : ℚ) + (4 + (10 - 4) * ((1 : ℚ) / (2 : ℚ))))
          ((0 : ℚ) + (4 + (10 - 4) * ((1 : ℚ) / (2 : ℚ))))
          (.rgba (Color.rgb 139 0 0).r (Color.rgb 139 0 0).g (Color.rgb 139 0 0).b
            ((pyInt (180 * (1 - (1 : ℚ) / (2 : ℚ)))).toNat)) 6) := by
  have h := draw_glow_ring_spec (0, 0) 10 4 (Color.rgb 139 0 0) 2 1 (by decide)
  exact ⟨h.1, by simpa using h.2.1⟩

/-- Python `int()` of a natural-cast real is that natural number. -/
theorem pyIntR_natCast (n : ℕ) : pyIntR ((n : ℝ)) = n := by
  unfold pyIntR
  rw [if_pos (Nat.cast_nonneg n)]
  exact Int.floor_natCast n

/-- The per-item trace, unfolded: the hex frame followed by the
optional thumbnail paste. -/
theorem itemOps_eq (net : String → HttpResponse)
    (decode : List Nat → Option Img) (apiKey : String) (n i : ℕ) (item : ItemId) :
    itemOps net decode apiKey n i item =
      draw_hex_frame (itemCenterR n i) 110 (.rgb 255 223 0) (.rgb 255 255 255) true ++
        (match (fetch_image net decode apiKey (some item)).img with
         | none => []
         | some img =>
            [(paste_center ⟨"RGBA", img.convertRGBA.width, img.convertRGBA.height, none⟩
              (((itemCenter n i).1 : ℚ), ((itemCenter n i).2 : ℚ)) 120).1]) := rfl

/-- The only white polygon of the hex frame is its fill polygon. -/
theorem filter_white_frame (c : ℝ × ℝ) (s : ℝ) :
    (draw_hex_frame c s (.rgb 255 223 0) (.rgb 255 255 255) true).filter isWhitePoly =
      [Op.polygon (hex_points c s) (.rgb 255 255 255)] := by
  show List.filter isWhitePoly
      (Op.polygon ((hex_points c s).map fun p => (p.1 + 4, p.2 + 4)) (.rgba 0 0 0 120) ::
        Op.polygon (hex_points c s) (.rgb 255 255 255) ::
        Op.lineSeg (hex_points c s ++ [(hex_points c s).headI]) (.rgb 255 223 0) 4 :: []) =
      [Op.polygon (hex_points c s) (.rgb 255 255 255)]
  rw [List.filter_cons_of_neg (by simp [isWhitePoly])]
  rw [List.filter_cons_of_pos (by simp [isWhitePoly])]
  rw [List.filter_cons_of_neg (by simp [isWhitePoly])]
  rfl

/-- Only the hex-frame fill polygons are white polygons: one per item. -/
theorem itemOps_filter_white (net : String → HttpResponse)
    (decode : List Nat → Option Img) (apiKey : String) (n i : ℕ) (item : ItemId) :
    (itemOps net decode apiKey n i item).filter isWhitePoly = [whiteHexOp n i] := by
  rw [itemOps_eq, List.filter_append, filter_white_frame]
  cases hf : (fetch_image net decode apiKey (some item)).img with
  | none => simp [whiteHexOp]
  | some img => simp [hf, paste_center, isWhitePoly, whiteHexOp]

/-- The white polygons of the ring loop are the frames of slots
`i, i+1, …` in ItemList order. -/
theorem ringLoop_filter_white (net : String → HttpResponse)
    (decode : List Nat → Option Img) (apiKey : String) (n : ℕ) :
    ∀ (items : List ItemId) (i : ℕ),
      ((ringLoop net decode apiKey n i items).1.filter isWhitePoly) =
        (List.range items.length).map (fun j => whiteHexOp n (i + j)) := by
  intro items
  induction items with
  | nil => intro i; simp [ringLoop]
  | cons item rest ih =>
      intro i
      have hcons : (ringLoop net decode apiKey n i (item :: rest)).1 =
          itemOps net decode apiKey n i item ++
            (ringLoop net decode apiKey n (i + 1) rest).1 := by
        simp [ringLoop]
      rw [hcons, List.filter_append, itemOps_filter_white, ih (i + 1)]
      simp only [List.length_cons, List.range_succ_eq_map, List.map_cons,
        List.map_map, Nat.add_zero, List.cons_append, List.nil_append,
        List.singleton_append]
      congr 1
      congr 1
      funext j
      simp only [Function.comp_apply]
      congr 1
      omega

/-- The gradient background contains no white polygon. -/
theorem backgroundOps_filter_white : backgroundOps.filter isWhitePoly = [] := by
  rw [List.filter_eq_nil]
  intro a ha
  rw [backgroundOps] at ha
  obtain ⟨y, hy, rfl⟩ := List.mem_map.mp ha
  simp [isWhitePoly]

/-- The avatar paste contains no white polygon. -/
theorem avatarOps_filter_white (a : Option Img) :
    (avatarOps a).filter isWhitePoly = [] := by
  cases a <;> simp [avatarOps, paste_center, isWhitePoly]

/-- The full draw trace of a render, with the ring loop started at
index 0 on the whole ItemList. -/
theorem build_ops_eq (net : String → HttpResponse)
    (decode : List Nat → Option Img) (apiKey : String) (d : ProfileRecord) :
    (build_outfit_panel net decode apiKey d).ops =
      Op.newCanvas W H (.rgba 30 30 30 255) ::
        (backgroundOps ++ avatarOps (resolveAvatar net decode apiKey d).1 ++
          (ringLoop net decode apiKey (itemList d).length 0 (itemList d)).1) := by
  unfold build_outfit_panel
  by_cases h : 0 < (itemList d).length
  · simp [h]
  · have hnil : itemList d = [] :=
      List.length_eq_zero.mp (Nat.eq_zero_of_not_pos h)
    simp [h, hnil, ringLoop]

/-- The white polygons of the whole render are exactly the `n` hex
fill polygons, in ItemList order. -/
theorem build_filter_white (net : String → HttpResponse)
    (decode : List Nat → Option Img) (apiKey : String) (d : ProfileRecord) :
    ((build_outfit_panel net decode apiKey d).ops.filter isWhitePoly) =
      (List.range (itemList d).length).map
        (fun j => whiteHexOp (itemList d).length j) := by
  rw [build_ops_eq]
  rw [List.filter_cons_of_neg (by simp [isWhitePoly])]
  rw [List.filter_append, List.filter_append, backgroundOps_filter_white,
    avatarOps_filter_white, ringLoop_filter_white]
  simp

/-- The white fill polygon of every ring slot occurs in the render. -/
theorem whiteHexOp_mem_build (net : String → HttpResponse)
    (decode : List Nat → Option Img) (apiKey : String) (d : ProfileRecord)
    (i : ℕ) (hi : i < (itemList d).length) :
    whiteHexOp (itemList d).length i ∈ (build_outfit_panel net decode apiKey d).ops := by
  apply List.mem_of_mem_filter (p := isWhitePoly)
  rw [build_filter_white]
  exact List.mem_map.mpr ⟨i, List.mem_range.mpr hi, rfl⟩

/-- Slot 0 of any ring size sits at the top of the ring:
angle −90°, pixel center (700, 80). -/
theorem itemCenter_zero (n : ℕ) : itemCenter n 0 = (700, 80) := by
  have hang : itemAngle n 0 = -(Real.pi / 2) := by
    unfold itemAngle radians
    push_cast
    ring
  unfold itemCenter
  rw [hang, Real.cos_neg, Real.cos_pi_div_two, Real.sin_neg, Real.sin_pi_div_two]
  have hx : ((center.1 : ℕ) : ℝ) + ((ring_radius : ℕ) : ℝ) * 0 = ((700 : ℕ) : ℝ) := by
    norm_num [center, W, ring_radius]
  have hy : ((center.2 : ℕ) : ℝ) + ((ring_radius : ℕ) : ℝ) * (-1) = ((80 : ℕ) : ℝ) := by
    norm_num [center, H, ring_radius]
  rw [hx, hy, pyIntR_natCast, pyIntR_natCast]
  norm_num

/-- Ring angles strictly increase along the ItemList (clockwise in
screen coordinates, where y grows downward). -/
theorem itemAngle_lt (n i j : ℕ) (hn : 1 ≤ n) (hij : i < j) :
    itemAngle n i < itemAngle n j := by
  unfold itemAngle radians
  apply mul_lt_mul_of_pos_right ?_ (by positivity : (0 : ℝ) < Real.pi / 180)
  apply add_lt_add_left
  apply mul_lt_mul_of_pos_left ?_ ?_
  · exact_mod_cast hij
  · apply div_pos (by norm_num)
    exact_mod_cast hn

/-- C1: each item `i` of `n` is framed at angle `−90 + (360/n)·i`
degrees on the radius-420 ring around (700, 500): the white
fill polygons are exactly the hexagons centered at the integer pixel
positions `int(center + 420·(cos θ, sin θ))`, in ItemList order; item 0
sits at the top, (700, 80), and angles strictly increase (clockwise)
along the list. -/
theorem ring_layout (net : String → HttpResponse)
    (decode : List Nat → Option Img) (apiKey : String) (d : ProfileRecord)
    (i : ℕ) (hn : 1 ≤ (itemList d).length) (hi : i < (itemList d).length) :
    ((build_outfit_panel net decode apiKey d).ops.filter isWhitePoly) =
      (List.range (itemList d).length).map
        (fun j => whiteHexOp (itemList d).length j)
    ∧ whiteHexOp (itemList d).length i =
        Op.polygon (hex_points (itemCenterR (itemList d).length i) 110)
          (.rgb 255 255 255)
    ∧ itemAngle (itemList d).length i =
        radians (-90 + 360 / ((itemList d).length : ℝ) * (i : ℝ))
    ∧ itemCenter (itemList d).length i =
        (pyIntR (700 + 420 * Real.cos (itemAngle (itemList d).length i)),
         pyIntR (500 + 420 * Real.sin (itemAngle (itemList d).length i)))
    ∧ itemCenter (itemList d).length 0 = (700, 80)
    ∧ (∀ j : ℕ, i < j →
        itemAngle (itemList d).length i < itemAngle (itemList d).length j) := by
  refine ⟨build_filter_white net decode apiKey d, rfl, rfl, ?_,
    itemCenter_zero _, fun j hj => itemAngle_lt _ _ _ hn hj⟩
  unfold itemCenter
  norm_num [center, W, H, ring_radius]

/-- C1 (witness): the single-item profile — one white hex polygon in
the trace, centered at the top of the ring. -/
theorem ring_layout_witness :
    ((build_outfit_panel net404 decodeNone "k" oneItem).ops.filter isWhitePoly) =
      (List.range (itemList oneItem).length).map
        (fun j => whiteHexOp (itemList oneItem).length j)
    ∧ itemCenter (itemList oneItem).length 0 = (700, 80) := by
  have h := ring_layout net404 decodeNone "k" oneItem 0 (by decide) (by decide)
  exact ⟨h.1, h.2.2.2.2.1⟩

/-- C3: the hex frame of every item is drawn unconditionally; when the
fetch of that item yields no image, that item contributes exactly the frame
and no paste, and the render still completes to a PNG. -/
theorem failed_item_keeps_frame (net : String → HttpResponse)
    (decode : List Nat → Option Img) (apiKey : String) (d : ProfileRecord)
    (i : ℕ) (hi : i < (itemList d).length) :
    whiteHexOp (itemList d).length i ∈ (build_outfit_panel net decode apiKey d).ops
    ∧ ((fetch_image net decode apiKey (some ((itemList d).get ⟨i, hi⟩))).img = none →
        itemOps net decode apiKey (itemList d).length i ((itemList d).get ⟨i, hi⟩) =
          draw_hex_frame (itemCenterR (itemList d).length i) 110
            (.rgb 255 223 0) (.rgb 255 255 255) true)
    ∧ (build_outfit_panel net decode apiKey d).format = "PNG" := by
  refine ⟨whiteHexOp_mem_build net decode apiKey d i hi, ?_, rfl⟩
  intro hf
  rw [itemOps_eq, hf]
  simp

/-- C3 (witness): on a network where every request fails, the frame of
the single item is present, its contribution is frame-only, and the
render completes. -/
theorem failed_item_keeps_frame_witness :
    whiteHexOp (itemList oneItem).length 0 ∈
      (build_outfit_panel net404 decodeNone "k" oneItem).ops
    ∧ itemOps net404 decodeNone "k" (itemList oneItem).length 0
        ((itemList oneItem).get ⟨0, by decide⟩) =
        draw_hex_frame (itemCenterR (itemList oneItem).length 0) 110
          (.rgb 255 223 0) (.rgb 255 255 255) true
    ∧ (build_outfit_panel net404 decodeNone "k" oneItem).format = "PNG" := by
  have h := failed_item_keeps_frame net404 decodeNone "k" oneItem 0 (by decide)
  exact ⟨h.1, h.2.1 (by decide), h.2.2⟩

/-- The placeholder paste: a 300×300 translucent gray square scales by
1 and lands with top-left corner (550, 350), centered on (700, 500). -/
theorem paste_center_silhouette :
    paste_center silhouette ((center.1 : ℚ), (center.2 : ℚ)) 300 =
      (Op.paste silhouette 550 350, silhouette) := by
  have e1 : ((300 : ℤ) : ℚ) *
      min ((300 : ℚ) / ((300 : ℤ) : ℚ)) ((300 : ℚ) / ((300 : ℤ) : ℚ)) =
      ((300 : ℤ) : ℚ) := by
    rw [min_self]
    norm_num
  have h1 : max 1 (pyInt (((300 : ℤ) : ℚ) *
      min ((300 : ℚ) / ((300 : ℤ) : ℚ)) ((300 : ℚ) / ((300 : ℤ) : ℚ)))) = (300 : ℤ) := by
    rw [e1, pyInt_intCast]
    norm_num
  have h3 : pyInt (((center.1 : ℕ) : ℚ) - ((300 : ℤ) : ℚ) / 2) = 550 := by
    have h : (((center.1 : ℕ) : ℚ) - ((300 : ℤ) : ℚ) / 2) = ((550 : ℤ) : ℚ) := by
      norm_num [center, W]
    rw [h, pyInt_intCast]
  have h4 : pyInt (((center.2 : ℕ) : ℚ) - ((300 : ℤ) : ℚ) / 2) = 350 := by
    have h : (((center.2 : ℕ) : ℚ) - ((300 : ℤ) : ℚ) / 2) = ((350 : ℤ) : ℚ) := by
      norm_num [center, H]
    rw [h, pyInt_intCast]
  simp only [paste_center, silhouette, h1, h3, h4]

/-- When no avatar was resolved, the render pastes the placeholder. -/
theorem avatarOps_none_eq : avatarOps none = [Op.paste silhouette 550 350] := by
  rw [avatarOps, paste_center_silhouette]

/-- C4: the avatar is the image fetched for `profileInfo.avatarId`
when that fetch succeeds, else the one from `basicInfo.headPic`; the `headPic` fetch is issued
exactly when the first fetch yields no image; when both yield none,
the 300×300 translucent gray placeholder is pasted centered on the
canvas center, and the render still completes to a PNG. -/
theorem avatar_fallback_spec (net : String → HttpResponse)
    (decode : List Nat → Option Img) (apiKey : String) (d : ProfileRecord) :
    (resolveAvatar net decode apiKey d).1 =
      (match (fetch_image net decode apiKey (avatarId d)).img with
       | some a => some a
       | none => (fetch_image net decode apiKey (headPic d)).img)
    ∧ (resolveAvatar net decode apiKey d).2 =
        (fetch_image net decode apiKey (avatarId d)).reqs ++
          (match (fetch_image net decode apiKey (avatarId d)).img with
           | some _ => []
           | none => (fetch_image net decode apiKey (headPic d)).reqs)
    ∧ ((fetch_image net decode apiKey (avatarId d)).img = none →
        (fetch_image net decode apiKey (headPic d)).img = none →
        Op.paste silhouette 550 350 ∈ (build_outfit_panel net decode apiKey d).ops
        ∧ silhouette = ⟨"RGBA", 300, 300, some (.rgba 200 200 200 120)⟩
        ∧ paste_center silhouette ((center.1 : ℚ), (center.2 : ℚ)) 300 =
            (Op.paste silhouette 550 350, silhouette))
    ∧ (build_outfit_panel net decode apiKey d).format = "PNG" := by
  refine ⟨?_, ?_, ?_, rfl⟩
  · cases h : (fetch_image net decode apiKey (avatarId d)).img <;>
      simp [resolveAvatar, h]
  · cases h : (fetch_image net decode apiKey (avatarId d)).img <;>
      simp [resolveAvatar, h]
  · intro h1 h2
    refine ⟨?_, rfl, paste_center_silhouette⟩
    have hav : (resolveAvatar net decode apiKey d).1 = none := by
      simp [resolveAvatar, h1, h2]
    rw [build_ops_eq, hav, avatarOps_none_eq]
    simp

/-- C4 (witness): a profile with neither `avatarId` nor `headPic`, on
a failing network: the placeholder paste is in the trace and the
render completes. -/
theorem avatar_fallback_spec_witness :
    Op.paste silhouette 550 350 ∈
      (build_outfit_panel net404 decodeNone "k" oneItem).ops
    ∧ (build_outfit_panel net404 decodeNone "k" oneItem).format = "PNG" := by
  have h := avatar_fallback_spec net404 decodeNone "k" oneItem
  exact ⟨(h.2.2.1 (by decide) (by decide)).1, h.2.2.2⟩

/-- C8: `hex_points` returns exactly 6 vertices, vertex `k` equal to
`center + size·(cos(60k − 30°), sin(60k − 30°))` for k = 0..5; when the
frame border is drawn, the outline closes the polygon by repeating the
first vertex at the end. -/
theorem hex_points_spec (c : ℝ × ℝ) (s : ℝ) (border fill : Color) (shadow : Bool) :
    (hex_points c s).length = 6
    ∧ (∀ k : ℕ, k < 6 → (hex_points c s).get? k =
        some (c.1 + s * Real.cos (radians (60 * (k : ℝ) - 30)),
              c.2 + s * Real.sin (radians (60 * (k : ℝ) - 30))))
    ∧ Op.lineSeg (hex_points c s ++ [(hex_points c s).headI]) border 4 ∈
        draw_hex_frame c s border fill shadow
    ∧ (hex_points c s).headI =
        (c.1 + s * Real.cos (radians (60 * ((0 : ℕ) : ℝ) - 30)),
         c.2 + s * Real.sin (radians (60 * ((0 : ℕ) : ℝ) - 30))) := by
  refine ⟨by simp [hex_points], ?_, ?_, ?_⟩
  · intro k hk
    rw [hex_points, List.get?_map, List.get?_range hk]
    rfl
  · cases shadow <;> simp [draw_hex_frame]
  · rw [hex_points]
    rfl

/-- C8 (witness): the hexagon at center (0,0) with size 10, vertex 0. -/
theorem hex_points_spec_witness :
    (hex_points ((0 : ℝ), (0 : ℝ)) 10).length = 6
    ∧ (hex_points ((0 : ℝ), (0 : ℝ)) 10).get? 0 =
        some ((0 : ℝ) + 10 * Real.cos (radians (60 * ((0 : ℕ) : ℝ) - 30)),
              (0 : ℝ) + 10 * Real.sin (radians (60 * ((0 : ℕ) : ℝ) - 30))) := by
  have h := hex_points_spec ((0 : ℝ), (0 : ℝ)) 10 (Color.rgb 139 0 0)
    (Color.rgb 30 30 30) true
  exact ⟨h.1, h.2.1 0 (by norm_num)⟩

end APIBot
